import Mathlib

/-!
# Verification of the ryzen_smu monitor script's decoding core

Shallow embedding of `src/scripts/monitor_cpu.py`:

* the CCD-topology resolver `getCCDCount` (lines 83-118), built on
  `read_smn_addr` (lines 54-65), modelled over an abstract register
  source `read : Nat → Option Nat` that yields `none` exactly when the
  underlying SMN write/read round-trip fails;
* the PM-table decoder, i.e. the pure computation performed by one
  iteration of `parse_pm_table` (lines 124-198), modelled over a byte
  buffer `List Nat` with IEEE-754 binary32 fields decoded into `ℚ`.
  Non-finite bit patterns (exponent 255: infinities and NaNs) fall
  outside the rational embedding and are modelled as read failures;
  all claims under study concern finite field values.

Python integers are unbounded, so register arithmetic is over `Nat`
with the source's explicit masks; no modular reduction is present in
the source.
-/

/-- Embeds `read_smn_addr` (lines 54-65): on any failure of the
underlying write/read round-trip the source prints a message and
returns `0`; on success it returns the register value parsed from the
driver's hex string.  The abstract collaborator `read` returns `none`
exactly in the failure cases (failed 4-byte write, short read). -/
def read_smn_addr (read : Nat → Option Nat) (addr : Nat) : Nat :=
  match read addr with
  | none => 0
  | some v => v

/-- Embeds the initial inverted conditional of `getCCDCount`
(lines 92-95): if `(value1 & 1) == 0 or value4 & 1` the count is left
alone (`ccdCount = ccdCount`), else it is incremented. -/
def bitZeroStep (value1 value4 : Nat) : Nat :=
  if value1 &&& 1 = 0 ∨ value4 &&& 1 ≠ 0 then 0 else 0 + 1

/-- Embeds one mask conditional of `getCCDCount` (one of
lines 97-116): `if mask & value1 and (mask & value4) == 0` increment
the running count `c`.  A Python test `mask & v` is truthy iff the
conjunction value is nonzero. -/
def maskStep (mask value1 value4 c : Nat) : Nat :=
  if mask &&& value1 ≠ 0 ∧ mask &&& value4 = 0 then c + 1 else c

/-- The arithmetic core of `getCCDCount` (lines 84-118) as a function
of the two combined register values `value1` and `value4`: the bit-0
step followed by the source's seven mask conditionals in order,
`0x80000000` down to `0x2000000`. -/
def ccdFromValues (value1 value4 : Nat) : Nat :=
  maskStep 0x2000000 value1 value4
    (maskStep 0x4000000 value1 value4
      (maskStep 0x8000000 value1 value4
        (maskStep 0x10000000 value1 value4
          (maskStep 0x20000000 value1 value4
            (maskStep 0x40000000 value1 value4
              (maskStep 0x80000000 value1 value4
                (bitZeroStep value1 value4)))))))

/-- Embeds `getCCDCount` (lines 83-118): the three SMN reads, the
shift/mask extraction of `value1`..`value3`, the combination
`value4 = value2 | (4 * value3)`, and the counting chain. -/
def getCCDCount (read : Nat → Option Nat) : Nat :=
  let value1 := (read_smn_addr read 0x5D21A >>> 22) &&& 0xff
  let value2 := (read_smn_addr read 0x5D21B >>> 30) &&& 0xff
  let value3 := read_smn_addr read 0x5D21C &&& 0x3f
  let value4 := value2 ||| (4 * value3)
  ccdFromValues value1 value4

/-- Modelled from the spec (§4.1 steps 5-7): the bit-0 step's
contribution plus one increment per mask of `masks` that is set in
`v1` and clear in `v4`.  Instantiated with the spec's eight-mask
descending sequence, or with the seven masks the source checks. -/
def specMaskCount (masks : List Nat) (v1 v4 : Nat) : Nat :=
  (if v1 &&& 1 ≠ 0 ∧ v4 &&& 1 = 0 then 1 else 0)
    + (masks.map (fun m => if m &&& v1 ≠ 0 ∧ m &&& v4 = 0 then 1 else 0)).sum

/-- The spec's eight-mask descending sequence (§4.1 step 7). -/
def specEightMasks : List Nat :=
  [0x80000000, 0x40000000, 0x20000000, 0x10000000,
   0x08000000, 0x04000000, 0x02000000, 0x01000000]

/-- The seven masks actually tested by the source (lines 97-116). -/
def sourceSevenMasks : List Nat :=
  [0x80000000, 0x40000000, 0x20000000, 0x10000000,
   0x08000000, 0x04000000, 0x02000000]

/-- Decodes an IEEE-754 binary32 bit pattern into an exact rational,
as `struct.unpack` produces for `"@f"` on the little-endian host the
script targets.  Finite values (normal, subnormal, signed zero) map to
their exact rational value `± scaled / 2 ^ 150`; non-finite patterns
(exponent field 255: infinities and NaNs) fall outside the rational
embedding and are modelled as `none`. -/
def decodeFloat32 (bits : Nat) : Option ℚ :=
  let sign := bits >>> 31
  let expo := (bits >>> 23) &&& 0xff
  let frac := bits &&& 0x7fffff
  if expo = 255 then none
  else
    let scaled : Nat := if expo = 0 then frac * 2 else (2 ^ 23 + frac) * 2 ^ expo
    let mag : ℚ := mkRat scaled (2 ^ 150)
    some (if sign = 1 then -mag else mag)

/-- A byte buffer as handed to the decoder: its Python length and its
byte contents by index (indices at and beyond `len` are irrelevant to
every read, which checks `len` first). -/
structure ByteBuf where
  len : Nat
  byte : Nat → Nat

/-- Embeds `read_float` (lines 74-75): `struct.unpack("@f",
buffer[offset:offset+4])` assembles the four little-endian bytes and
reinterprets them as a binary32 float; when the slice is shorter than
4 bytes — exactly when `offset + 4 > len(buffer)` — `struct.unpack`
raises `struct.error`, modelled as `none`. -/
def read_float (buffer : ByteBuf) (offset : Nat) : Option ℚ :=
  if offset + 4 ≤ buffer.len then
    decodeFloat32 (buffer.byte offset + 2 ^ 8 * buffer.byte (offset + 1)
      + 2 ^ 16 * buffer.byte (offset + 2) + 2 ^ 24 * buffer.byte (offset + 3))
  else none

/-- The loop-carried locals of the per-core `while` loop of
`parse_pm_table` (lines 138-153): `totalA`, `peakFreq`, the
`peakActivity` local (which is unassigned — `none` — until the first
strict improvement over the initial `peakFreq = 0`), and the per-core
`(freq, activity)` pairs the loop body computes and prints. -/
structure CoreLoopState where
  totalA : ℚ
  peakFreq : ℚ
  peakActivity : Option ℚ
  coreReadings : List (ℚ × ℚ)

/-- One iteration of the per-core loop body (lines 139-153) at index
`i`: reads the core's raw frequency and activity, scales the
frequency by 1000.0, updates the peak tracker on strict improvement,
and accumulates the activity. -/
def coreStep (pm : ByteBuf) (st : CoreLoopState) (i : Nat) : Option CoreLoopState :=
  (read_float pm (0x30C + i * 4)).bind fun fraw =>
  let freq := fraw * 1000
  (read_float pm (0x32C + i * 4)).bind fun activity =>
  let st1 := if st.peakFreq < freq then
      { st with peakFreq := freq, peakActivity := some activity } else st
  some { st1 with totalA := st1.totalA + activity,
                  coreReadings := st1.coreReadings ++ [(freq, activity)] }

/-- The whole per-core `while i < cores` loop (lines 138-153),
starting from `totalA = peakFreq = 0` and running indices
`0, 1, …, cores - 1` in order. -/
def coreLoop (pm : ByteBuf) : Nat → Option CoreLoopState
  | 0 => some ⟨0, 0, none, []⟩
  | n + 1 => (coreLoop pm n).bind fun st => coreStep pm st n

/-- The scalar power/thermal block of `parse_pm_table`
(lines 157-166), in source read order. -/
structure PowerVals where
  pptW : ℚ
  pptU : ℚ
  tdcA : ℚ
  tdcU : ℚ
  tjMax : ℚ
  tempC : ℚ
  edcA : ℚ
  edcRaw0 : ℚ
  CorP : ℚ
  SoCP : ℚ

/-- Reads the scalar power/thermal fields (lines 157-166).
`edcRaw0` is the raw float at 0x024 before the activity scaling of
line 164 is applied. -/
def readPower (pm : ByteBuf) : Option PowerVals :=
  (read_float pm 0x000).bind fun pptW =>
  (read_float pm 0x004).bind fun pptU =>
  (read_float pm 0x008).bind fun tdcA =>
  (read_float pm 0x00C).bind fun tdcU =>
  (read_float pm 0x010).bind fun tjMax =>
  (read_float pm 0x014).bind fun tempC =>
  (read_float pm 0x020).bind fun edcA =>
  (read_float pm 0x024).bind fun edcRaw0 =>
  (read_float pm 0x060).bind fun CorP =>
  (read_float pm 0x064).bind fun SoCP =>
  some { pptW, pptU, tdcA, tdcU, tjMax, tempC, edcA, edcRaw0, CorP, SoCP }

/-- The memory-block scalars of `parse_pm_table` (lines 180-189), in
source read order. -/
structure MemVals where
  fclkMHz : ℚ
  uclkMHz : ℚ
  mclkMHz : ℚ
  vddpV : ℚ
  vddgV : ℚ

/-- Reads the memory-block fields (lines 180-189). -/
def readMem (pm : ByteBuf) : Option MemVals :=
  (read_float pm 0x118).bind fun fclkMHz =>
  (read_float pm 0x128).bind fun uclkMHz =>
  (read_float pm 0x138).bind fun mclkMHz =>
  (read_float pm 0x1F4).bind fun vddpV =>
  (read_float pm 0x1F8).bind fun vddgV =>
  some { fclkMHz, uclkMHz, mclkMHz, vddpV, vddgV }

/-- Everything one iteration of `parse_pm_table` (lines 128-198)
computes from the buffer: the loop locals, every scalar field, the
scaled `edcU` before (`edcUraw`, line 164) and after (`edcU`,
lines 168-169) the floor clamp, and the coupled-mode flag
(lines 183-186, `"ON"` modelled as `true`). -/
structure PmSnapshot where
  coreReadings : List (ℚ × ℚ)
  totalA : ℚ
  peakFreq : ℚ
  peakActivity : Option ℚ
  pptW : ℚ
  pptU : ℚ
  tdcA : ℚ
  tdcU : ℚ
  tjMax : ℚ
  tempC : ℚ
  edcA : ℚ
  edcUraw : ℚ
  edcU : ℚ
  CorP : ℚ
  SoCP : ℚ
  fclkMHz : ℚ
  uclkMHz : ℚ
  mclkMHz : ℚ
  coupledMode : Bool
  vddpV : ℚ
  vddgV : ℚ

/-- Embeds one decode pass of `parse_pm_table` (lines 128-198) over an
already-acquired buffer: the per-core loop, the scalar reads, the
activity scaling of the raw EDC value (line 164), the EDC floor clamp
(lines 168-169), and the coupled-mode comparison (line 183).  The
printing and the outer poll/sleep loop are presentation, not decoding,
and carry no further computation on the buffer. -/
def parse_pm_table (pm : ByteBuf) (cores : Nat) : Option PmSnapshot :=
  (coreLoop pm cores).bind fun st =>
  (readPower pm).bind fun pw =>
  (readMem pm).bind fun mv =>
  let edcUraw := pw.edcRaw0 * (st.totalA / (cores : ℚ) / 100)
  let edcU := if edcUraw < pw.tdcU then pw.tdcU else edcUraw
  let coupledMode := if mv.uclkMHz = mv.mclkMHz then true else false
  some { coreReadings := st.coreReadings, totalA := st.totalA,
         peakFreq := st.peakFreq, peakActivity := st.peakActivity,
         pptW := pw.pptW, pptU := pw.pptU, tdcA := pw.tdcA, tdcU := pw.tdcU,
         tjMax := pw.tjMax, tempC := pw.tempC, edcA := pw.edcA,
         edcUraw, edcU, CorP := pw.CorP, SoCP := pw.SoCP,
         fclkMHz := mv.fclkMHz, uclkMHz := mv.uclkMHz, mclkMHz := mv.mclkMHz,
         coupledMode, vddpV := mv.vddpV, vddgV := mv.vddgV }

/-- The decoded frequency (MHz) of core `i`, as the loop body computes
it on a successful read: raw float at `0x30C + i*4` times 1000.0. -/
def coreFreqAt (pm : ByteBuf) (i : Nat) : ℚ :=
  (read_float pm (0x30C + i * 4)).getD 0 * 1000

/-- The decoded activity (percent) of core `i`: raw float at
`0x32C + i*4`, on a successful read. -/
def coreActAt (pm : ByteBuf) (i : Nat) : ℚ :=
  (read_float pm (0x32C + i * 4)).getD 0

/-- A full-size (0x330-byte) all-zero PM table: every field decodes
to 0.0. -/
def pmZero : ByteBuf := ⟨0x330, fun _ => 0⟩

/-- An empty buffer (length 0): every read is out of bounds. -/
def pmEmpty : ByteBuf := ⟨0, fun _ => 0⟩

/-- All zeros except `uclkMHz` = `mclkMHz` = 1600.0f
(bit pattern 0x44C80000, little-endian bytes at 0x128 and 0x138). -/
def pmCoupled : ByteBuf :=
  ⟨0x330, fun i =>
    if i = 0x12A then 0xC8 else if i = 0x12B then 0x44 else
    if i = 0x13A then 0xC8 else if i = 0x13B then 0x44 else 0⟩

/-- All zeros except `uclkMHz` = 1600.0f and `mclkMHz` = 0x44C7FFF8,
the binary32 value 1599.9990234375 — the representable value closest
to 1599.999, one unit in the last place below 1600.0. -/
def pmUncoupled : ByteBuf :=
  ⟨0x330, fun i =>
    if i = 0x12A then 0xC8 else if i = 0x12B then 0x44 else
    if i = 0x138 then 0xF8 else if i = 0x139 then 0xFF else
    if i = 0x13A then 0xC7 else if i = 0x13B then 0x44 else 0⟩

/-- All zeros except core 0's raw frequency field = 3.5f
(bit pattern 0x40600000 at offset 0x30C). -/
def pmFreq35 : ByteBuf :=
  ⟨0x330, fun i => if i = 0x30E then 0x60 else if i = 0x30F then 0x40 else 0⟩

/-- All zeros except core 0's raw frequency field = -1.0f
(bit pattern 0xBF800000 at offset 0x30C): the decoded frequency is
-1000.0 MHz, strictly below the loop's initial `peakFreq = 0`. -/
def pmFreqNeg : ByteBuf :=
  ⟨0x330, fun i => if i = 0x30E then 0x80 else if i = 0x30F then 0xBF else 0⟩

/-! ## Resolver lemmas -/

/-- A power of two `and`ed with a number below it vanishes. -/
lemma pow_and_eq_zero_of_lt (k v : Nat) (hv : v < 2 ^ k) : 2 ^ k &&& v = 0 := by
  rw [Nat.two_pow_and, Nat.testBit_eq_false_of_lt hv]
  simp

/-- A mask step whose mask shares no set bit with `value1` leaves the
count unchanged. -/
lemma maskStep_of_and_eq_zero (m v1 v4 c : Nat) (h : m &&& v1 = 0) :
    maskStep m v1 v4 c = c := by
  unfold maskStep
  simp [h]

/-- A mask step adds the indicator of its condition. -/
lemma maskStep_eq_add (m v1 v4 c : Nat) :
    maskStep m v1 v4 c = c + (if m &&& v1 ≠ 0 ∧ m &&& v4 = 0 then 1 else 0) := by
  unfold maskStep
  split <;> omega

/-- Since `value1` fits in 8 bits, none of the seven high-mask tests
of `getCCDCount` can fire, so the chain reduces to the bit-0 step. -/
lemma ccdFromValues_of_byte (v1 v4 : Nat) (h : v1 ≤ 255) :
    ccdFromValues v1 v4 = if v1 &&& 1 ≠ 0 ∧ v4 &&& 1 = 0 then 1 else 0 := by
  have hb : ∀ k, 8 ≤ k → 2 ^ k &&& v1 = 0 := fun k hk =>
    pow_and_eq_zero_of_lt k v1 (lt_of_le_of_lt h
      (by calc (255 : Nat) < 2 ^ 8 := by norm_num
               _ ≤ 2 ^ k := Nat.pow_le_pow_right (by norm_num) hk))
  have h31 : (0x80000000 : Nat) &&& v1 = 0 := hb 31 (by norm_num)
  have h30 : (0x40000000 : Nat) &&& v1 = 0 := hb 30 (by norm_num)
  have h29 : (0x20000000 : Nat) &&& v1 = 0 := hb 29 (by norm_num)
  have h28 : (0x10000000 : Nat) &&& v1 = 0 := hb 28 (by norm_num)
  have h27 : (0x8000000 : Nat) &&& v1 = 0 := hb 27 (by norm_num)
  have h26 : (0x4000000 : Nat) &&& v1 = 0 := hb 26 (by norm_num)
  have h25 : (0x2000000 : Nat) &&& v1 = 0 := hb 25 (by norm_num)
  unfold ccdFromValues
  rw [maskStep_of_and_eq_zero _ _ _ _ h25, maskStep_of_and_eq_zero _ _ _ _ h26,
    maskStep_of_and_eq_zero _ _ _ _ h27, maskStep_of_and_eq_zero _ _ _ _ h28,
    maskStep_of_and_eq_zero _ _ _ _ h29, maskStep_of_and_eq_zero _ _ _ _ h30,
    maskStep_of_and_eq_zero _ _ _ _ h31]
  unfold bitZeroStep
  split_ifs <;> omega

/-- Closed form of the resolver over any register source: the count
is the indicator of bit 0 being set in `value1` and clear in
`value4`. -/
lemma getCCDCount_eval (read : Nat → Option Nat) :
    getCCDCount read =
      if ((read_smn_addr read 0x5D21A >>> 22) &&& 0xff) &&& 1 ≠ 0 ∧
          (((read_smn_addr read 0x5D21B >>> 30) &&& 0xff)
            ||| (4 * (read_smn_addr read 0x5D21C &&& 0x3f))) &&& 1 = 0
        then 1 else 0 := by
  unfold getCCDCount
  exact ccdFromValues_of_byte _ _ Nat.and_le_right

/-! ## Claims about the CCD resolver -/

/-- C1, counterexample: the spec's step 7 lists eight masks ending in
`0x01000000`, claiming that mask contributes an increment when set in
`value1` and clear in `value4`; the source tests only seven masks
(lines 97-116) and has no `0x01000000` step, so at
`value1 = 0x01000000, value4 = 0` the source's chain counts 0 while
the spec's eight-mask rule counts 1. -/
theorem ccdFromValues_ne_eightMaskCount :
    ccdFromValues 0x01000000 0 = 0 ∧ specMaskCount specEightMasks 0x01000000 0 = 1 ∧
      ccdFromValues 0x01000000 0 ≠ specMaskCount specEightMasks 0x01000000 0 := by
  refine ⟨by decide, by decide, by decide⟩

/-- C1, amended: after the initial bit-0 step, the source increments
once per mask of the seven-mask descending sequence `0x80000000` down
to `0x02000000` that is set in `value1` and clear in `value4`; there
is no `0x01000000` step. -/
theorem ccdFromValues_eq_sevenMaskCount (v1 v4 : Nat) :
    ccdFromValues v1 v4 = specMaskCount sourceSevenMasks v1 v4 := by
  unfold ccdFromValues specMaskCount sourceSevenMasks bitZeroStep
  rw [List.map_cons, List.map_cons, List.map_cons, List.map_cons, List.map_cons,
    List.map_cons, List.map_cons, List.map_nil, List.sum_cons, List.sum_cons,
    List.sum_cons, List.sum_cons, List.sum_cons, List.sum_cons, List.sum_cons,
    List.sum_nil, maskStep_eq_add, maskStep_eq_add, maskStep_eq_add,
    maskStep_eq_add, maskStep_eq_add, maskStep_eq_add, maskStep_eq_add]
  by_cases ha : v1 &&& 1 = 0 <;> by_cases hb : v4 &&& 1 = 0 <;>
    simp only [ha, hb, ne_eq, not_true_eq_false, not_false_iff, true_and, false_and,
      true_or, or_true, false_or, or_false, if_true, if_false, and_true, and_false,
      not_true, not_false_eq_true, ite_true, ite_false] <;> ring

/-- C2: for every register source, the resolver's inverted bit-0
conditional (source lines 92-95: no-op `then`, incrementing `else`)
observably increments the count from 0 to 1 exactly when
`(value1 & 1) != 0` and `(value4 & 1) == 0`, with
`value1 = (read(0x5D21A) >> 22) & 0xFF` and
`value4 = ((read(0x5D21B) >> 30) & 0xFF) | 4 * (read(0x5D21C) & 0x3F)`. -/
theorem getCCDCount_step6_mapping (read : Nat → Option Nat) :
    getCCDCount read =
      if ((read_smn_addr read 0x5D21A >>> 22) &&& 0xff) &&& 1 ≠ 0 ∧
          (((read_smn_addr read 0x5D21B >>> 30) &&& 0xff)
            ||| (4 * (read_smn_addr read 0x5D21C &&& 0x3f))) &&& 1 = 0
        then 1 else 0 :=
  getCCDCount_eval read

/-- C10: for every register source the resolver returns 0 or 1 —
`value1` is masked to 8 bits, so none of the high-mask tests can
fire and only the bit-0 step can increment. -/
theorem getCCDCount_le_one (read : Nat → Option Nat) :
    getCCDCount read = 0 ∨ getCCDCount read = 1 := by
  rw [getCCDCount_eval]
  split_ifs <;> simp

/-- C3, counterexample: with a register source whose every read
fails, `read_smn_addr` returns the defaulted value 0 (after printing
a message, lines 55-63) and `getCCDCount` still runs to completion
and produces a CCD count (here 0) instead of propagating a failure. -/
theorem getCCDCount_total_on_failure :
    read_smn_addr (fun _ => none) 0x5D21C = 0 ∧
      getCCDCount (fun _ => none) = 0 := by
  refine ⟨rfl, ?_⟩
  rw [getCCDCount_eval]
  norm_num [read_smn_addr]

/-- C3, amended: a failed register read is not propagated —
`read_smn_addr` prints and returns 0 for it (lines 55-63), and
`getCCDCount` keeps going on the defaulted values; with every read
failing it returns the count 0 rather than a failure. -/
theorem read_failure_defaults_to_zero (read : Nat → Option Nat)
    (h : ∀ a, read a = none) :
    (∀ a, read_smn_addr read a = 0) ∧ getCCDCount read = 0 := by
  have hr : ∀ a, read_smn_addr read a = 0 := by
    intro a; unfold read_smn_addr; rw [h a]
  refine ⟨hr, ?_⟩
  rw [getCCDCount_eval, hr, hr, hr]
  norm_num

/-- Witness for C3's amended theorem at the concrete all-failing
register source. -/
theorem read_failure_defaults_to_zero_witness :
    read_smn_addr (fun _ => none) 0x5D21A = 0 ∧
      getCCDCount (fun _ => none) = 0 :=
  ⟨(read_failure_defaults_to_zero (fun _ => none) (fun _ => rfl)).1 0x5D21A,
   (read_failure_defaults_to_zero (fun _ => none) (fun _ => rfl)).2⟩

/-! ## Decoder lemmas -/

/-- A read whose 4-byte window does not fit in the buffer fails. -/
lemma read_float_none_of_short (pm : ByteBuf) (off : Nat) (h : pm.len < off + 4) :
    read_float pm off = none := by
  unfold read_float
  rw [if_neg (by omega)]

/-- Inversion for one loop iteration: a successful `coreStep` means
both reads succeeded, and the new state is the old one with the
activity accumulated, the reading appended, and the peak pair
replaced exactly on strict improvement. -/
lemma coreStep_eq_some {pm : ByteBuf} {st st' : CoreLoopState} {i : Nat}
    (h : coreStep pm st i = some st') :
    ∃ f a, read_float pm (0x30C + i * 4) = some f ∧
      read_float pm (0x32C + i * 4) = some a ∧
      st' = { totalA := st.totalA + a,
              peakFreq := if st.peakFreq < f * 1000 then f * 1000 else st.peakFreq,
              peakActivity := if st.peakFreq < f * 1000 then some a else st.peakActivity,
              coreReadings := st.coreReadings ++ [(f * 1000, a)] } := by
  unfold coreStep at h
  simp only [Option.bind_eq_some] at h
  obtain ⟨f, hf, a, ha, hst⟩ := h
  refine ⟨f, a, hf, ha, ?_⟩
  split at hst <;> rename_i hc <;>
    (simp only [Option.some.injEq] at hst; rw [← hst]; simp [hc])

/-- Unfolding equation for one more loop iteration. -/
lemma coreLoop_succ (pm : ByteBuf) (n : Nat) :
    coreLoop pm (n + 1) = (coreLoop pm n).bind fun st => coreStep pm st n := rfl

/-- After `n` iterations, `totalA` is the sum of the first `n`
decoded activities. -/
lemma coreLoop_totalA {pm : ByteBuf} : ∀ {n : Nat} {st : CoreLoopState},
    coreLoop pm n = some st →
    st.totalA = ((List.range n).map (coreActAt pm)).sum := by
  intro n
  induction n with
  | zero =>
    intro st h
    simp only [coreLoop, Option.some.injEq] at h
    simp [← h]
  | succ n ih =>
    intro st h
    rw [coreLoop_succ] at h
    simp only [Option.bind_eq_some] at h
    obtain ⟨st', hst', hstep⟩ := h
    obtain ⟨f, a, hf, ha, rfl⟩ := coreStep_eq_some hstep
    have hact : coreActAt pm n = a := by
      unfold coreActAt
      rw [ha]
      rfl
    dsimp only
    rw [List.range_succ]
    simp [ih hst', hact]

/-- After `n` iterations the loop has recorded `n` readings. -/
lemma coreLoop_length {pm : ByteBuf} : ∀ {n : Nat} {st : CoreLoopState},
    coreLoop pm n = some st → st.coreReadings.length = n := by
  intro n
  induction n with
  | zero =>
    intro st h
    simp only [coreLoop, Option.some.injEq] at h
    simp [← h]
  | succ n ih =>
    intro st h
    rw [coreLoop_succ] at h
    simp only [Option.bind_eq_some] at h
    obtain ⟨st', hst', hstep⟩ := h
    obtain ⟨f, a, hf, ha, rfl⟩ := coreStep_eq_some hstep
    simp [ih hst']

/-- The `i`-th recorded reading is the decoded frequency/activity
pair of core `i`: raw frequency times 1000, raw activity as is. -/
lemma coreLoop_get {pm : ByteBuf} : ∀ {n : Nat} {st : CoreLoopState},
    coreLoop pm n = some st → ∀ i, i < n →
    st.coreReadings[i]? = some (coreFreqAt pm i, coreActAt pm i) := by
  intro n
  induction n with
  | zero =>
    intro st h i hi
    omega
  | succ n ih =>
    intro st h i hi
    rw [coreLoop_succ] at h
    simp only [Option.bind_eq_some] at h
    obtain ⟨st', hst', hstep⟩ := h
    obtain ⟨f, a, hf, ha, rfl⟩ := coreStep_eq_some hstep
    rcases Nat.lt_or_ge i n with hin | hin
    · have hlt : i < st'.coreReadings.length := by
        rw [coreLoop_length hst']
        exact hin
      have := ih hst' i hin
      dsimp only
      rw [List.getElem?_append_left hlt]
      exact this
    · have hieq : i = n := by omega
      subst hieq
      have hlen : st'.coreReadings.length = i := coreLoop_length hst'
      have hfreq : coreFreqAt pm i = f * 1000 := by
        unfold coreFreqAt
        rw [hf]
        rfl
      have hact : coreActAt pm i = a := by
        unfold coreActAt
        rw [ha]
        rfl
      dsimp only
      rw [hfreq, hact, ← hlen, List.getElem?_concat_length]

/-- Peak-tracking invariant of the loop.  The tracker starts at
`peakFreq = 0` with `peakActivity` unassigned and updates only on
strict improvement, so after `n` iterations either no decoded
frequency exceeded 0 — the tracker is untouched — or the tracker
holds the decoded frequency/activity pair of the earliest core
attaining the (positive) maximum. -/
lemma coreLoop_peak {pm : ByteBuf} : ∀ {n : Nat} {st : CoreLoopState},
    coreLoop pm n = some st →
    (st.peakFreq = 0 ∧ st.peakActivity = none ∧ ∀ i, i < n → coreFreqAt pm i ≤ 0) ∨
    (∃ j, j < n ∧ 0 < coreFreqAt pm j ∧ st.peakFreq = coreFreqAt pm j ∧
      st.peakActivity = some (coreActAt pm j) ∧
      (∀ i, i < n → coreFreqAt pm i ≤ coreFreqAt pm j) ∧
      ∀ k, k < j → coreFreqAt pm k < coreFreqAt pm j) := by
  intro n
  induction n with
  | zero =>
    intro st h
    simp only [coreLoop, Option.some.injEq] at h
    left
    rw [← h]
    exact ⟨rfl, rfl, fun i hi => absurd hi (Nat.not_lt_zero i)⟩
  | succ n ih =>
    intro st h
    rw [coreLoop_succ] at h
    simp only [Option.bind_eq_some] at h
    obtain ⟨st', hst', hstep⟩ := h
    obtain ⟨f, a, hf, ha, rfl⟩ := coreStep_eq_some hstep
    have hfreq : coreFreqAt pm n = f * 1000 := by
      unfold coreFreqAt
      rw [hf]
      rfl
    have hact : coreActAt pm n = a := by
      unfold coreActAt
      rw [ha]
      rfl
    dsimp only
    rcases ih hst' with ⟨hp0, hact0, hall⟩ | ⟨j, hjn, hjpos, hpeak, hpact, hub, hstrict⟩
    · by_cases hlt : st'.peakFreq < f * 1000
      · have hpos : 0 < coreFreqAt pm n := by
          rw [hfreq]
          rw [hp0] at hlt
          exact hlt
        right
        refine ⟨n, Nat.lt_succ_self n, hpos, ?_, ?_, ?_, ?_⟩
        · rw [if_pos hlt, hfreq]
        · rw [if_pos hlt, hact]
        · intro i hi
          rcases Nat.lt_or_ge i n with hin | hin
          · exact le_of_lt (lt_of_le_of_lt (hall i hin) hpos)
          · have hieq : i = n := by omega
            subst hieq
            exact le_refl _
        · intro k hk
          exact lt_of_le_of_lt (hall k hk) hpos
      · left
        refine ⟨?_, ?_, ?_⟩
        · rw [if_neg hlt, hp0]
        · rw [if_neg hlt, hact0]
        · intro i hi
          rcases Nat.lt_or_ge i n with hin | hin
          · exact hall i hin
          · have hieq : i = n := by omega
            subst hieq
            rw [hfreq]
            rw [hp0] at hlt
            exact le_of_not_lt hlt
    · by_cases hlt : st'.peakFreq < f * 1000
      · have hjlt : coreFreqAt pm j < coreFreqAt pm n := by
          rw [hfreq]
          rw [hpeak] at hlt
          exact hlt
        right
        refine ⟨n, Nat.lt_succ_self n, lt_trans hjpos hjlt, ?_, ?_, ?_, ?_⟩
        · rw [if_pos hlt, hfreq]
        · rw [if_pos hlt, hact]
        · intro i hi
          rcases Nat.lt_or_ge i n with hin | hin
          · exact le_of_lt (lt_of_le_of_lt (hub i hin) hjlt)
          · have hieq : i = n := by omega
            subst hieq
            exact le_refl _
        · intro k hk
          exact lt_of_le_of_lt (hub k hk) hjlt
      · right
        refine ⟨j, Nat.lt_succ_of_lt hjn, hjpos, ?_, ?_, ?_, hstrict⟩
        · rw [if_neg hlt, hpeak]
        · rw [if_neg hlt, hpact]
        · intro i hi
          rcases Nat.lt_or_ge i n with hin | hin
          · exact hub i hin
          · have hieq : i = n := by omega
            subst hieq
            rw [hfreq]
            rw [hpeak] at hlt
            exact le_of_not_lt hlt

/-- A loop over at least one core fails outright on a buffer too
short for the last activity read. -/
lemma coreLoop_none_of_short {pm : ByteBuf} {n : Nat} (hn : 1 ≤ n)
    (hshort : pm.len < 0x32C + n * 4) : coreLoop pm n = none := by
  obtain ⟨m, rfl⟩ : ∃ m, n = m + 1 := ⟨n - 1, by omega⟩
  rw [coreLoop_succ]
  cases hc : coreLoop pm m with
  | none => rfl
  | some st =>
    rw [Option.some_bind]
    unfold coreStep
    simp only [read_float_none_of_short pm (0x32C + m * 4) (by omega),
      Option.none_bind]
    cases read_float pm (0x30C + m * 4) <;> rfl

/-- Inversion for the scalar power/thermal block: each field is the
float at its table offset. -/
lemma readPower_eq_some {pm : ByteBuf} {pw : PowerVals} (h : readPower pm = some pw) :
    read_float pm 0x000 = some pw.pptW ∧ read_float pm 0x004 = some pw.pptU ∧
    read_float pm 0x008 = some pw.tdcA ∧ read_float pm 0x00C = some pw.tdcU ∧
    read_float pm 0x010 = some pw.tjMax ∧ read_float pm 0x014 = some pw.tempC ∧
    read_float pm 0x020 = some pw.edcA ∧ read_float pm 0x024 = some pw.edcRaw0 ∧
    read_float pm 0x060 = some pw.CorP ∧ read_float pm 0x064 = some pw.SoCP := by
  unfold readPower at h
  simp only [Option.bind_eq_some, Option.some.injEq] at h
  obtain ⟨pptW, h0, pptU, h1, tdcA, h2, tdcU, h3, tjMax, h4, tempC, h5,
    edcA, h6, edcRaw0, h7, CorP, h8, SoCP, h9, hpw⟩ := h
  subst hpw
  exact ⟨h0, h1, h2, h3, h4, h5, h6, h7, h8, h9⟩

/-- Inversion for the memory block: each field is the float at its
table offset. -/
lemma readMem_eq_some {pm : ByteBuf} {mv : MemVals} (h : readMem pm = some mv) :
    read_float pm 0x118 = some mv.fclkMHz ∧ read_float pm 0x128 = some mv.uclkMHz ∧
    read_float pm 0x138 = some mv.mclkMHz ∧ read_float pm 0x1F4 = some mv.vddpV ∧
    read_float pm 0x1F8 = some mv.vddgV := by
  unfold readMem at h
  simp only [Option.bind_eq_some, Option.some.injEq] at h
  obtain ⟨fclkMHz, h0, uclkMHz, h1, mclkMHz, h2, vddpV, h3, vddgV, h4, hmv⟩ := h
  subst hmv
  exact ⟨h0, h1, h2, h3, h4⟩

/-- Inversion for the decoder: a successful decode means the loop and
both scalar blocks succeeded, and exhibits every snapshot field. -/
lemma parse_pm_table_eq_some {pm : ByteBuf} {cores : Nat} {s : PmSnapshot}
    (h : parse_pm_table pm cores = some s) :
    ∃ st pw mv, coreLoop pm cores = some st ∧ readPower pm = some pw ∧
      readMem pm = some mv ∧
      s = { coreReadings := st.coreReadings, totalA := st.totalA,
            peakFreq := st.peakFreq, peakActivity := st.peakActivity,
            pptW := pw.pptW, pptU := pw.pptU, tdcA := pw.tdcA, tdcU := pw.tdcU,
            tjMax := pw.tjMax, tempC := pw.tempC, edcA := pw.edcA,
            edcUraw := pw.edcRaw0 * (st.totalA / (cores : ℚ) / 100),
            edcU := if pw.edcRaw0 * (st.totalA / (cores : ℚ) / 100) < pw.tdcU
                    then pw.tdcU
                    else pw.edcRaw0 * (st.totalA / (cores : ℚ) / 100),
            CorP := pw.CorP, SoCP := pw.SoCP,
            fclkMHz := mv.fclkMHz, uclkMHz := mv.uclkMHz, mclkMHz := mv.mclkMHz,
            coupledMode := if mv.uclkMHz = mv.mclkMHz then true else false,
            vddpV := mv.vddpV, vddgV := mv.vddgV } := by
  unfold parse_pm_table at h
  simp only [Option.bind_eq_some, Option.some.injEq] at h
  obtain ⟨st, hst, pw, hpw, mv, hmv, hs⟩ := h
  exact ⟨st, pw, mv, hst, hpw, hmv, hs.symm⟩

/-! ## Claims about the PM-table decoder -/

/-- C4: for every buffer and valid core count, a successful decode
satisfies `edcU = max edcUraw tdcU` (the clamp of lines 168-169), and
in particular `tdcU ≤ edcU`. -/
theorem edcU_eq_max (pm : ByteBuf) (cores : Nat) (s : PmSnapshot)
    (hc : 1 ≤ cores) (h : parse_pm_table pm cores = some s) :
    s.edcU = max s.edcUraw s.tdcU ∧ s.tdcU ≤ s.edcU := by
  obtain ⟨st, pw, mv, hst, hpw, hmv, rfl⟩ := parse_pm_table_eq_some h
  dsimp only
  constructor
  · rcases lt_or_le (pw.edcRaw0 * (st.totalA / (cores : ℚ) / 100)) pw.tdcU with hlt | hle
    · rw [if_pos hlt, max_eq_right (le_of_lt hlt)]
    · rw [if_neg (not_lt.mpr hle), max_eq_left hle]
  · split_ifs with hlt
    · exact le_refl _
    · exact le_of_not_lt hlt

/-- C6: for every buffer and core count at least 1, a successful
decode has `edcUraw` equal to the float at 0x024 scaled by
`totalA / cores / 100` (line 164), where `totalA` is the sum of the
decoded per-core activities. -/
theorem edcUraw_formula (pm : ByteBuf) (cores : Nat) (s : PmSnapshot)
    (hc : 1 ≤ cores) (h : parse_pm_table pm cores = some s) :
    s.edcUraw = (read_float pm 0x024).getD 0 * (s.totalA / (cores : ℚ) / 100) ∧
      s.totalA = ((List.range cores).map (coreActAt pm)).sum := by
  obtain ⟨st, pw, mv, hst, hpw, hmv, rfl⟩ := parse_pm_table_eq_some h
  have h24 : read_float pm 0x024 = some pw.edcRaw0 :=
    (readPower_eq_some hpw).2.2.2.2.2.2.2.1
  dsimp only
  refine ⟨?_, coreLoop_totalA hst⟩
  rw [h24]
  rfl

/-- C8: for every buffer, core count and index `i < cores`, a
successful decode records for core `i` the pair of the float at
`0x30C + i*4` times 1000.0 (applied once, line 140) and the float at
`0x32C + i*4` (line 141). -/
theorem coreReading_formula (pm : ByteBuf) (cores : Nat) (s : PmSnapshot) (i : Nat)
    (hi : i < cores) (h : parse_pm_table pm cores = some s) :
    s.coreReadings[i]? = some ((read_float pm (0x30C + i * 4)).getD 0 * 1000,
      (read_float pm (0x32C + i * 4)).getD 0) := by
  obtain ⟨st, pw, mv, hst, hpw, hmv, rfl⟩ := parse_pm_table_eq_some h
  dsimp only
  exact coreLoop_get hst i hi

/-- C5, amended: provided some decoded frequency is strictly positive
(the tracker starts at 0 and only updates on strict improvement), the
snapshot's `peakFreq` is the maximum decoded frequency and
`peakActivity` is the activity of the earliest core attaining it;
later cores with an equal frequency do not replace it. -/
theorem peakFreq_max_of_positive (pm : ByteBuf) (cores : Nat) (s : PmSnapshot)
    (hc : 1 ≤ cores) (h : parse_pm_table pm cores = some s)
    (hpos : ∃ i, i < cores ∧ 0 < coreFreqAt pm i) :
    ∃ j, j < cores ∧ s.peakFreq = coreFreqAt pm j ∧
      s.peakActivity = some (coreActAt pm j) ∧
      (∀ i, i < cores → coreFreqAt pm i ≤ coreFreqAt pm j) ∧
      ∀ k, k < j → coreFreqAt pm k < coreFreqAt pm j := by
  obtain ⟨st, pw, mv, hst, hpw, hmv, rfl⟩ := parse_pm_table_eq_some h
  dsimp only
  rcases coreLoop_peak hst with ⟨hp0, hact0, hall⟩ |
    ⟨j, hj, hjpos, hpeak, hpact, hub, hstrict⟩
  · obtain ⟨i, hi, hposi⟩ := hpos
    exact absurd (hall i hi) (not_le.mpr hposi)
  · exact ⟨j, hj, hpeak, hpact, hub, hstrict⟩

/-- C9: decoding with at least one core fails outright — returns no
snapshot — whenever the buffer is shorter than `0x32C + cores*4`, the
byte just past the last activity read; `struct.unpack` raises on the
short slice rather than fabricating a value. -/
theorem parse_short_buffer_none (pm : ByteBuf) (cores : Nat)
    (hc : 1 ≤ cores) (hlen : pm.len < 0x32C + cores * 4) :
    parse_pm_table pm cores = none := by
  unfold parse_pm_table
  rw [coreLoop_none_of_short hc hlen]
  rfl

/-- Witness for C9 at the concrete empty buffer with one core. -/
theorem parse_short_buffer_none_witness :
    pmEmpty.len < 0x32C + 1 * 4 ∧ parse_pm_table pmEmpty 1 = none :=
  ⟨by norm_num [pmEmpty], parse_short_buffer_none pmEmpty 1 (le_refl 1) (by norm_num [pmEmpty])⟩

/-! ## Concrete-buffer evaluations -/

/-- The all-zero bit pattern decodes to 0.0. -/
lemma decodeFloat32_zero : decodeFloat32 0 = some 0 := by decide

/-- Evaluate a read from its four bytes. -/
lemma read_float_of_bytes (pm : ByteBuf) (off b0 b1 b2 b3 : Nat)
    (hlen : off + 4 ≤ pm.len) (h0 : pm.byte off = b0) (h1 : pm.byte (off + 1) = b1)
    (h2 : pm.byte (off + 2) = b2) (h3 : pm.byte (off + 3) = b3) :
    read_float pm off =
      decodeFloat32 (b0 + 2 ^ 8 * b1 + 2 ^ 16 * b2 + 2 ^ 24 * b3) := by
  rw [read_float, if_pos hlen, h0, h1, h2, h3]

/-- A read of four zero bytes yields 0.0. -/
lemma read_float_zero_bytes (pm : ByteBuf) (off : Nat)
    (hlen : off + 4 ≤ pm.len) (h0 : pm.byte off = 0) (h1 : pm.byte (off + 1) = 0)
    (h2 : pm.byte (off + 2) = 0) (h3 : pm.byte (off + 3) = 0) :
    read_float pm off = some 0 := by
  rw [read_float_of_bytes pm off 0 0 0 0 hlen h0 h1 h2 h3]
  norm_num [decodeFloat32_zero]

/-- Every in-bounds read of the all-zero table yields 0.0. -/
lemma read_float_pmZero (off : Nat) (hlen : off + 4 ≤ 0x330) :
    read_float pmZero off = some 0 :=
  read_float_zero_bytes pmZero off hlen rfl rfl rfl rfl
/-- The snapshot decoded from the all-zero table. -/
def snapZero : PmSnapshot :=
  { coreReadings := [(0, 0)],
    totalA := 0,
    peakFreq := 0,
    peakActivity := none,
    pptW := 0,
    pptU := 0,
    tdcA := 0,
    tdcU := 0,
    tjMax := 0,
    tempC := 0,
    edcA := 0,
    edcUraw := 0,
    edcU := 0,
    CorP := 0,
    SoCP := 0,
    fclkMHz := 0,
    uclkMHz := 0,
    mclkMHz := 0,
    coupledMode := true,
    vddpV := 0,
    vddgV := 0 }

/-- The snapshot decoded from `pmCoupled`. -/
def snapCoupled : PmSnapshot :=
  { coreReadings := [(0, 0)],
    totalA := 0,
    peakFreq := 0,
    peakActivity := none,
    pptW := 0,
    pptU := 0,
    tdcA := 0,
    tdcU := 0,
    tjMax := 0,
    tempC := 0,
    edcA := 0,
    edcUraw := 0,
    edcU := 0,
    CorP := 0,
    SoCP := 0,
    fclkMHz := 0,
    uclkMHz := 1600,
    mclkMHz := 1600,
    coupledMode := true,
    vddpV := 0,
    vddgV := 0 }

/-- The snapshot decoded from `pmUncoupled`: `mclkMHz` is the
binary32 value 1599.9990234375, so coupled mode is off. -/
def snapUncoupled : PmSnapshot :=
  { coreReadings := [(0, 0)],
    totalA := 0,
    peakFreq := 0,
    peakActivity := none,
    pptW := 0,
    pptU := 0,
    tdcA := 0,
    tdcU := 0,
    tjMax := 0,
    tempC := 0,
    edcA := 0,
    edcUraw := 0,
    edcU := 0,
    CorP := 0,
    SoCP := 0,
    fclkMHz := 0,
    uclkMHz := 1600,
    mclkMHz := 1638399 / 1024,
    coupledMode := false,
    vddpV := 0,
    vddgV := 0 }

/-- The snapshot decoded from `pmFreq35`: the raw 3.5 scales to
3500.0 MHz and becomes the (positive) peak. -/
def snapFreq35 : PmSnapshot :=
  { coreReadings := [(3500, 0)],
    totalA := 0,
    peakFreq := 3500,
    peakActivity := some 0,
    pptW := 0,
    pptU := 0,
    tdcA := 0,
    tdcU := 0,
    tjMax := 0,
    tempC := 0,
    edcA := 0,
    edcUraw := 0,
    edcU := 0,
    CorP := 0,
    SoCP := 0,
    fclkMHz := 0,
    uclkMHz := 0,
    mclkMHz := 0,
    coupledMode := true,
    vddpV := 0,
    vddgV := 0 }

/-- The snapshot decoded from `pmFreqNeg`: the only decoded
frequency is -1000.0 MHz, so the peak tracker never fires. -/
def snapFreqNeg : PmSnapshot :=
  { coreReadings := [(-1000, 0)],
    totalA := 0,
    peakFreq := 0,
    peakActivity := none,
    pptW := 0,
    pptU := 0,
    tdcA := 0,
    tdcU := 0,
    tjMax := 0,
    tempC := 0,
    edcA := 0,
    edcUraw := 0,
    edcU := 0,
    CorP := 0,
    SoCP := 0,
    fclkMHz := 0,
    uclkMHz := 0,
    mclkMHz := 0,
    coupledMode := true,
    vddpV := 0,
    vddgV := 0 }

/-- Full evaluation of the decoder on the all-zero table. -/
lemma parse_pmZero : parse_pm_table pmZero 1 = some snapZero := by
  simp only [parse_pm_table, coreLoop, coreStep, readPower, readMem, snapZero]
  norm_num [read_float_pmZero]

/-- Full evaluation of the decoder on `pmCoupled`. -/
lemma parse_pmCoupled : parse_pm_table pmCoupled 1 = some snapCoupled := by
  have r30C : read_float pmCoupled 0x30C = some 0 :=
    read_float_zero_bytes pmCoupled 0x30C (by norm_num [pmCoupled])
      (by norm_num [pmCoupled]) (by norm_num [pmCoupled]) (by norm_num [pmCoupled])
      (by norm_num [pmCoupled])
  have r32C : read_float pmCoupled 0x32C = some 0 :=
    read_float_zero_bytes pmCoupled 0x32C (by norm_num [pmCoupled])
      (by norm_num [pmCoupled]) (by norm_num [pmCoupled]) (by norm_num [pmCoupled])
      (by norm_num [pmCoupled])
  have r000 : read_float pmCoupled 0x000 = some 0 :=
    read_float_zero_bytes pmCoupled 0x000 (by norm_num [pmCoupled])
      (by norm_num [pmCoupled]) (by norm_num [pmCoupled]) (by norm_num [pmCoupled])
      (by norm_num [pmCoupled])
  have r004 : read_float pmCoupled 0x004 = some 0 :=
    read_float_zero_bytes pmCoupled 0x004 (by norm_num [pmCoupled])
      (by norm_num [pmCoupled]) (by norm_num [pmCoupled]) (by norm_num [pmCoupled])
      (by norm_num [pmCoupled])
  have r008 : read_float pmCoupled 0x008 = some 0 :=
    read_float_zero_bytes pmCoupled 0x008 (by norm_num [pmCoupled])
      (by norm_num [pmCoupled]) (by norm_num [pmCoupled]) (by norm_num [pmCoupled])
      (by norm_num [pmCoupled])
  have r00C : read_float pmCoupled 0x00C = some 0 :=
    read_float_zero_bytes pmCoupled 0x00C (by norm_num [pmCoupled])
      (by norm_num [pmCoupled]) (by norm_num [pmCoupled]) (by norm_num [pmCoupled])
      (by norm_num [pmCoupled])
  have r010 : read_float pmCoupled 0x010 = some 0 :=
    read_float_zero_bytes pmCoupled 0x010 (by norm_num [pmCoupled])
      (by norm_num [pmCoupled]) (by norm_num [pmCoupled]) (by norm_num [pmCoupled])
      (by norm_num [pmCoupled])
  have r014 : read_float pmCoupled 0x014 = some 0 :=
    read_float_zero_bytes pmCoupled 0x014 (by norm_num [pmCoupled])
      (by norm_num [pmCoupled]) (by norm_num [pmCoupled]) (by norm_num [pmCoupled])
      (by norm_num [pmCoupled])
  have r020 : read_float pmCoupled 0x020 = some 0 :=
    read_float_zero_bytes pmCoupled 0x020 (by norm_num [pmCoupled])
      (by norm_num [pmCoupled]) (by norm_num [pmCoupled]) (by norm_num [pmCoupled])
      (by norm_num [pmCoupled])
  have r024 : read_float pmCoupled 0x024 = some 0 :=
    read_float_zero_bytes pmCoupled 0x024 (by norm_num [pmCoupled])
      (by norm_num [pmCoupled]) (by norm_num [pmCoupled]) (by norm_num [pmCoupled])
      (by norm_num [pmCoupled])
  have r060 : read_float pmCoupled 0x060 = some 0 :=
    read_float_zero_bytes pmCoupled 0x060 (by norm_num [pmCoupled])
      (by norm_num [pmCoupled]) (by norm_num [pmCoupled]) (by norm_num [pmCoupled])
      (by norm_num [pmCoupled])
  have r064 : read_float pmCoupled 0x064 = some 0 :=
    read_float_zero_bytes pmCoupled 0x064 (by norm_num [pmCoupled])
      (by norm_num [pmCoupled]) (by norm_num [pmCoupled]) (by norm_num [pmCoupled])
      (by norm_num [pmCoupled])
  have r118 : read_float pmCoupled 0x118 = some 0 :=
    read_float_zero_bytes pmCoupled 0x118 (by norm_num [pmCoupled])
      (by norm_num [pmCoupled]) (by norm_num [pmCoupled]) (by norm_num [pmCoupled])
      (by norm_num [pmCoupled])
  have r128 : read_float pmCoupled 0x128 = some (1600) := by
    rw [read_float_of_bytes pmCoupled 0x128 0x00 0x00 0xC8 0x44 (by norm_num [pmCoupled])
      (by norm_num [pmCoupled]) (by norm_num [pmCoupled]) (by norm_num [pmCoupled])
      (by norm_num [pmCoupled])]
    decide
  have r138 : read_float pmCoupled 0x138 = some (1600) := by
    rw [read_float_of_bytes pmCoupled 0x138 0x00 0x00 0xC8 0x44 (by norm_num [pmCoupled])
      (by norm_num [pmCoupled]) (by norm_num [pmCoupled]) (by norm_num [pmCoupled])
      (by norm_num [pmCoupled])]
    decide
  have r1F4 : read_float pmCoupled 0x1F4 = some 0 :=
    read_float_zero_bytes pmCoupled 0x1F4 (by norm_num [pmCoupled])
      (by norm_num [pmCoupled]) (by norm_num [pmCoupled]) (by norm_num [pmCoupled])
      (by norm_num [pmCoupled])
  have r1F8 : read_float pmCoupled 0x1F8 = some 0 :=
    read_float_zero_bytes pmCoupled 0x1F8 (by norm_num [pmCoupled])
      (by norm_num [pmCoupled]) (by norm_num [pmCoupled]) (by norm_num [pmCoupled])
      (by norm_num [pmCoupled])
  simp only [parse_pm_table, coreLoop, coreStep, readPower, readMem, snapCoupled]
  norm_num [r30C, r32C, r000, r004, r008, r00C, r010, r014, r020, r024, r060, r064, r118, r128, r138, r1F4, r1F8]

/-- Full evaluation of the decoder on `pmUncoupled`. -/
lemma parse_pmUncoupled : parse_pm_table pmUncoupled 1 = some snapUncoupled := by
  have r30C : read_float pmUncoupled 0x30C = some 0 :=
    read_float_zero_bytes pmUncoupled 0x30C (by norm_num [pmUncoupled])
      (by norm_num [pmUncoupled]) (by norm_num [pmUncoupled]) (by norm_num [pmUncoupled])
      (by norm_num [pmUncoupled])
  have r32C : read_float pmUncoupled 0x32C = some 0 :=
    read_float_zero_bytes pmUncoupled 0x32C (by norm_num [pmUncoupled])
      (by norm_num [pmUncoupled]) (by norm_num [pmUncoupled]) (by norm_num [pmUncoupled])
      (by norm_num [pmUncoupled])
  have r000 : read_float pmUncoupled 0x000 = some 0 :=
    read_float_zero_bytes pmUncoupled 0x000 (by norm_num [pmUncoupled])
      (by norm_num [pmUncoupled]) (by norm_num [pmUncoupled]) (by norm_num [pmUncoupled])
      (by norm_num [pmUncoupled])
  have r004 : read_float pmUncoupled 0x004 = some 0 :=
    read_float_zero_bytes pmUncoupled 0x004 (by norm_num [pmUncoupled])
      (by norm_num [pmUncoupled]) (by norm_num [pmUncoupled]) (by norm_num [pmUncoupled])
      (by norm_num [pmUncoupled])
  have r008 : read_float pmUncoupled 0x008 = some 0 :=
    read_float_zero_bytes pmUncoupled 0x008 (by norm_num [pmUncoupled])
      (by norm_num [pmUncoupled]) (by norm_num [pmUncoupled]) (by norm_num [pmUncoupled])
      (by norm_num [pmUncoupled])
  have r00C : read_float pmUncoupled 0x00C = some 0 :=
    read_float_zero_bytes pmUncoupled 0x00C (by norm_num [pmUncoupled])
      (by norm_num [pmUncoupled]) (by norm_num [pmUncoupled]) (by norm_num [pmUncoupled])
      (by norm_num [pmUncoupled])
  have r010 : read_float pmUncoupled 0x010 = some 0 :=
    read_float_zero_bytes pmUncoupled 0x010 (by norm_num [pmUncoupled])
      (by norm_num [pmUncoupled]) (by norm_num [pmUncoupled]) (by norm_num [pmUncoupled])
      (by norm_num [pmUncoupled])
  have r014 : read_float pmUncoupled 0x014 = some 0 :=
    read_float_zero_bytes pmUncoupled 0x014 (by norm_num [pmUncoupled])
      (by norm_num [pmUncoupled]) (by norm_num [pmUncoupled]) (by norm_num [pmUncoupled])
      (by norm_num [pmUncoupled])
  have r020 : read_float pmUncoupled 0x020 = some 0 :=
    read_float_zero_bytes pmUncoupled 0x020 (by norm_num [pmUncoupled])
      (by norm_num [pmUncoupled]) (by norm_num [pmUncoupled]) (by norm_num [pmUncoupled])
      (by norm_num [pmUncoupled])
  have r024 : read_float pmUncoupled 0x024 = some 0 :=
    read_float_zero_bytes pmUncoupled 0x024 (by norm_num [pmUncoupled])
      (by norm_num [pmUncoupled]) (by norm_num [pmUncoupled]) (by norm_num [pmUncoupled])
      (by norm_num [pmUncoupled])
  have r060 : read_float pmUncoupled 0x060 = some 0 :=
    read_float_zero_bytes pmUncoupled 0x060 (by norm_num [pmUncoupled])
      (by norm_num [pmUncoupled]) (by norm_num [pmUncoupled]) (by norm_num [pmUncoupled])
      (by norm_num [pmUncoupled])
  have r064 : read_float pmUncoupled 0x064 = some 0 :=
    read_float_zero_bytes pmUncoupled 0x064 (by norm_num [pmUncoupled])
      (by norm_num [pmUncoupled]) (by norm_num [pmUncoupled]) (by norm_num [pmUncoupled])
      (by norm_num [pmUncoupled])
  have r118 : read_float pmUncoupled 0x118 = some 0 :=
    read_float_zero_bytes pmUncoupled 0x118 (by norm_num [pmUncoupled])
      (by norm_num [pmUncoupled]) (by norm_num [pmUncoupled]) (by norm_num [pmUncoupled])
      (by norm_num [pmUncoupled])
  have r128 : read_float pmUncoupled 0x128 = some (1600) := by
    rw [read_float_of_bytes pmUncoupled 0x128 0x00 0x00 0xC8 0x44 (by norm_num [pmUncoupled])
      (by norm_num [pmUncoupled]) (by norm_num [pmUncoupled]) (by norm_num [pmUncoupled])
      (by norm_num [pmUncoupled])]
    decide
  have r138 : read_float pmUncoupled 0x138 = some (1638399 / 1024) := by
    rw [read_float_of_bytes pmUncoupled 0x138 0xF8 0xFF 0xC7 0x44 (by norm_num [pmUncoupled])
      (by norm_num [pmUncoupled]) (by norm_num [pmUncoupled]) (by norm_num [pmUncoupled])
      (by norm_num [pmUncoupled])]
    have hv : (1638399 : ℚ) / 1024 = mkRat 1638399 1024 := by
      norm_num [Rat.mkRat_eq_divInt, Rat.divInt_eq_div]
    rw [hv]
    decide
  have r1F4 : read_float pmUncoupled 0x1F4 = some 0 :=
    read_float_zero_bytes pmUncoupled 0x1F4 (by norm_num [pmUncoupled])
      (by norm_num [pmUncoupled]) (by norm_num [pmUncoupled]) (by norm_num [pmUncoupled])
      (by norm_num [pmUncoupled])
  have r1F8 : read_float pmUncoupled 0x1F8 = some 0 :=
    read_float_zero_bytes pmUncoupled 0x1F8 (by norm_num [pmUncoupled])
      (by norm_num [pmUncoupled]) (by norm_num [pmUncoupled]) (by norm_num [pmUncoupled])
      (by norm_num [pmUncoupled])
  simp only [parse_pm_table, coreLoop, coreStep, readPower, readMem, snapUncoupled]
  norm_num [r30C, r32C, r000, r004, r008, r00C, r010, r014, r020, r024, r060, r064, r118, r128, r138, r1F4, r1F8]

/-- Full evaluation of the decoder on `pmFreq35`. -/
lemma parse_pmFreq35 : parse_pm_table pmFreq35 1 = some snapFreq35 := by
  have r30C : read_float pmFreq35 0x30C = some (7 / 2) := by
    rw [read_float_of_bytes pmFreq35 0x30C 0x00 0x00 0x60 0x40 (by norm_num [pmFreq35])
      (by norm_num [pmFreq35]) (by norm_num [pmFreq35]) (by norm_num [pmFreq35])
      (by norm_num [pmFreq35])]
    have hv : (7 : ℚ) / 2 = mkRat 7 2 := by
      norm_num [Rat.mkRat_eq_divInt, Rat.divInt_eq_div]
    rw [hv]
    decide
  have r32C : read_float pmFreq35 0x32C = some 0 :=
    read_float_zero_bytes pmFreq35 0x32C (by norm_num [pmFreq35])
      (by norm_num [pmFreq35]) (by norm_num [pmFreq35]) (by norm_num [pmFreq35])
      (by norm_num [pmFreq35])
  have r000 : read_float pmFreq35 0x000 = some 0 :=
    read_float_zero_bytes pmFreq35 0x000 (by norm_num [pmFreq35])
      (by norm_num [pmFreq35]) (by norm_num [pmFreq35]) (by norm_num [pmFreq35])
      (by norm_num [pmFreq35])
  have r004 : read_float pmFreq35 0x004 = some 0 :=
    read_float_zero_bytes pmFreq35 0x004 (by norm_num [pmFreq35])
      (by norm_num [pmFreq35]) (by norm_num [pmFreq35]) (by norm_num [pmFreq35])
      (by norm_num [pmFreq35])
  have r008 : read_float pmFreq35 0x008 = some 0 :=
    read_float_zero_bytes pmFreq35 0x008 (by norm_num [pmFreq35])
      (by norm_num [pmFreq35]) (by norm_num [pmFreq35]) (by norm_num [pmFreq35])
      (by norm_num [pmFreq35])
  have r00C : read_float pmFreq35 0x00C = some 0 :=
    read_float_zero_bytes pmFreq35 0x00C (by norm_num [pmFreq35])
      (by norm_num [pmFreq35]) (by norm_num [pmFreq35]) (by norm_num [pmFreq35])
      (by norm_num [pmFreq35])
  have r010 : read_float pmFreq35 0x010 = some 0 :=
    read_float_zero_bytes pmFreq35 0x010 (by norm_num [pmFreq35])
      (by norm_num [pmFreq35]) (by norm_num [pmFreq35]) (by norm_num [pmFreq35])
      (by norm_num [pmFreq35])
  have r014 : read_float pmFreq35 0x014 = some 0 :=
    read_float_zero_bytes pmFreq35 0x014 (by norm_num [pmFreq35])
      (by norm_num [pmFreq35]) (by norm_num [pmFreq35]) (by norm_num [pmFreq35])
      (by norm_num [pmFreq35])
  have r020 : read_float pmFreq35 0x020 = some 0 :=
    read_float_zero_bytes pmFreq35 0x020 (by norm_num [pmFreq35])
      (by norm_num [pmFreq35]) (by norm_num [pmFreq35]) (by norm_num [pmFreq35])
      (by norm_num [pmFreq35])
  have r024 : read_float pmFreq35 0x024 = some 0 :=
    read_float_zero_bytes pmFreq35 0x024 (by norm_num [pmFreq35])
      (by norm_num [pmFreq35]) (by norm_num [pmFreq35]) (by norm_num [pmFreq35])
      (by norm_num [pmFreq35])
  have r060 : read_float pmFreq35 0x060 = some 0 :=
    read_float_zero_bytes pmFreq35 0x060 (by norm_num [pmFreq35])
      (by norm_num [pmFreq35]) (by norm_num [pmFreq35]) (by norm_num [pmFreq35])
      (by norm_num [pmFreq35])
  have r064 : read_float pmFreq35 0x064 = some 0 :=
    read_float_zero_bytes pmFreq35 0x064 (by norm_num [pmFreq35])
      (by norm_num [pmFreq35]) (by norm_num [pmFreq35]) (by norm_num [pmFreq35])
      (by norm_num [pmFreq35])
  have r118 : read_float pmFreq35 0x118 = some 0 :=
    read_float_zero_bytes pmFreq35 0x118 (by norm_num [pmFreq35])
      (by norm_num [pmFreq35]) (by norm_num [pmFreq35]) (by norm_num [pmFreq35])
      (by norm_num [pmFreq35])
  have r128 : read_float pmFreq35 0x128 = some 0 :=
    read_float_zero_bytes pmFreq35 0x128 (by norm_num [pmFreq35])
      (by norm_num [pmFreq35]) (by norm_num [pmFreq35]) (by norm_num [pmFreq35])
      (by norm_num [pmFreq35])
  have r138 : read_float pmFreq35 0x138 = some 0 :=
    read_float_zero_bytes pmFreq35 0x138 (by norm_num [pmFreq35])
      (by norm_num [pmFreq35]) (by norm_num [pmFreq35]) (by norm_num [pmFreq35])
      (by norm_num [pmFreq35])
  have r1F4 : read_float pmFreq35 0x1F4 = some 0 :=
    read_float_zero_bytes pmFreq35 0x1F4 (by norm_num [pmFreq35])
      (by norm_num [pmFreq35]) (by norm_num [pmFreq35]) (by norm_num [pmFreq35])
      (by norm_num [pmFreq35])
  have r1F8 : read_float pmFreq35 0x1F8 = some 0 :=
    read_float_zero_bytes pmFreq35 0x1F8 (by norm_num [pmFreq35])
      (by norm_num [pmFreq35]) (by norm_num [pmFreq35]) (by norm_num [pmFreq35])
      (by norm_num [pmFreq35])
  simp only [parse_pm_table, coreLoop, coreStep, readPower, readMem, snapFreq35]
  norm_num [r30C, r32C, r000, r004, r008, r00C, r010, r014, r020, r024, r060, r064, r118, r128, r138, r1F4, r1F8]

/-- Full evaluation of the decoder on `pmFreqNeg`. -/
lemma parse_pmFreqNeg : parse_pm_table pmFreqNeg 1 = some snapFreqNeg := by
  have r30C : read_float pmFreqNeg 0x30C = some (-1) := by
    rw [read_float_of_bytes pmFreqNeg 0x30C 0x00 0x00 0x80 0xBF (by norm_num [pmFreqNeg])
      (by norm_num [pmFreqNeg]) (by norm_num [pmFreqNeg]) (by norm_num [pmFreqNeg])
      (by norm_num [pmFreqNeg])]
    decide
  have r32C : read_float pmFreqNeg 0x32C = some 0 :=
    read_float_zero_bytes pmFreqNeg 0x32C (by norm_num [pmFreqNeg])
      (by norm_num [pmFreqNeg]) (by norm_num [pmFreqNeg]) (by norm_num [pmFreqNeg])
      (by norm_num [pmFreqNeg])
  have r000 : read_float pmFreqNeg 0x000 = some 0 :=
    read_float_zero_bytes pmFreqNeg 0x000 (by norm_num [pmFreqNeg])
      (by norm_num [pmFreqNeg]) (by norm_num [pmFreqNeg]) (by norm_num [pmFreqNeg])
      (by norm_num [pmFreqNeg])
  have r004 : read_float pmFreqNeg 0x004 = some 0 :=
    read_float_zero_bytes pmFreqNeg 0x004 (by norm_num [pmFreqNeg])
      (by norm_num [pmFreqNeg]) (by norm_num [pmFreqNeg]) (by norm_num [pmFreqNeg])
      (by norm_num [pmFreqNeg])
  have r008 : read_float pmFreqNeg 0x008 = some 0 :=
    read_float_zero_bytes pmFreqNeg 0x008 (by norm_num [pmFreqNeg])
      (by norm_num [pmFreqNeg]) (by norm_num [pmFreqNeg]) (by norm_num [pmFreqNeg])
      (by norm_num [pmFreqNeg])
  have r00C : read_float pmFreqNeg 0x00C = some 0 :=
    read_float_zero_bytes pmFreqNeg 0x00C (by norm_num [pmFreqNeg])
      (by norm_num [pmFreqNeg]) (by norm_num [pmFreqNeg]) (by norm_num [pmFreqNeg])
      (by norm_num [pmFreqNeg])
  have r010 : read_float pmFreqNeg 0x010 = some 0 :=
    read_float_zero_bytes pmFreqNeg 0x010 (by norm_num [pmFreqNeg])
      (by norm_num [pmFreqNeg]) (by norm_num [pmFreqNeg]) (by norm_num [pmFreqNeg])
      (by norm_num [pmFreqNeg])
  have r014 : read_float pmFreqNeg 0x014 = some 0 :=
    read_float_zero_bytes pmFreqNeg 0x014 (by norm_num [pmFreqNeg])
      (by norm_num [pmFreqNeg]) (by norm_num [pmFreqNeg]) (by norm_num [pmFreqNeg])
      (by norm_num [pmFreqNeg])
  have r020 : read_float pmFreqNeg 0x020 = some 0 :=
    read_float_zero_bytes pmFreqNeg 0x020 (by norm_num [pmFreqNeg])
      (by norm_num [pmFreqNeg]) (by norm_num [pmFreqNeg]) (by norm_num [pmFreqNeg])
      (by norm_num [pmFreqNeg])
  have r024 : read_float pmFreqNeg 0x024 = some 0 :=
    read_float_zero_bytes pmFreqNeg 0x024 (by norm_num [pmFreqNeg])
      (by norm_num [pmFreqNeg]) (by norm_num [pmFreqNeg]) (by norm_num [pmFreqNeg])
      (by norm_num [pmFreqNeg])
  have r060 : read_float pmFreqNeg 0x060 = some 0 :=
    read_float_zero_bytes pmFreqNeg 0x060 (by norm_num [pmFreqNeg])
      (by norm_num [pmFreqNeg]) (by norm_num [pmFreqNeg]) (by norm_num [pmFreqNeg])
      (by norm_num [pmFreqNeg])
  have r064 : read_float pmFreqNeg 0x064 = some 0 :=
    read_float_zero_bytes pmFreqNeg 0x064 (by norm_num [pmFreqNeg])
      (by norm_num [pmFreqNeg]) (by norm_num [pmFreqNeg]) (by norm_num [pmFreqNeg])
      (by norm_num [pmFreqNeg])
  have r118 : read_float pmFreqNeg 0x118 = some 0 :=
    read_float_zero_bytes pmFreqNeg 0x118 (by norm_num [pmFreqNeg])
      (by norm_num [pmFreqNeg]) (by norm_num [pmFreqNeg]) (by norm_num [pmFreqNeg])
      (by norm_num [pmFreqNeg])
  have r128 : read_float pmFreqNeg 0x128 = some 0 :=
    read_float_zero_bytes pmFreqNeg 0x128 (by norm_num [pmFreqNeg])
      (by norm_num [pmFreqNeg]) (by norm_num [pmFreqNeg]) (by norm_num [pmFreqNeg])
      (by norm_num [pmFreqNeg])
  have r138 : read_float pmFreqNeg 0x138 = some 0 :=
    read_float_zero_bytes pmFreqNeg 0x138 (by norm_num [pmFreqNeg])
      (by norm_num [pmFreqNeg]) (by norm_num [pmFreqNeg]) (by norm_num [pmFreqNeg])
      (by norm_num [pmFreqNeg])
  have r1F4 : read_float pmFreqNeg 0x1F4 = some 0 :=
    read_float_zero_bytes pmFreqNeg 0x1F4 (by norm_num [pmFreqNeg])
      (by norm_num [pmFreqNeg]) (by norm_num [pmFreqNeg]) (by norm_num [pmFreqNeg])
      (by norm_num [pmFreqNeg])
  have r1F8 : read_float pmFreqNeg 0x1F8 = some 0 :=
    read_float_zero_bytes pmFreqNeg 0x1F8 (by norm_num [pmFreqNeg])
      (by norm_num [pmFreqNeg]) (by norm_num [pmFreqNeg]) (by norm_num [pmFreqNeg])
      (by norm_num [pmFreqNeg])
  simp only [parse_pm_table, coreLoop, coreStep, readPower, readMem, snapFreqNeg]
  norm_num [r30C, r32C, r000, r004, r008, r00C, r010, r014, r020, r024, r060, r064, r118, r128, r138, r1F4, r1F8]

/-- Core 0's raw frequency field of `pmFreq35` holds 3.5. -/
lemma read_float_pmFreq35_freq : read_float pmFreq35 0x30C = some (7 / 2) := by
  rw [read_float_of_bytes pmFreq35 0x30C 0x00 0x00 0x60 0x40 (by norm_num [pmFreq35])
    (by norm_num [pmFreq35]) (by norm_num [pmFreq35]) (by norm_num [pmFreq35])
    (by norm_num [pmFreq35])]
  have hv : (7 : ℚ) / 2 = mkRat 7 2 := by
    norm_num [Rat.mkRat_eq_divInt, Rat.divInt_eq_div]
  rw [hv]
  decide

/-- Core 0's raw frequency field of `pmFreqNeg` holds -1.0. -/
lemma read_float_pmFreqNeg_freq : read_float pmFreqNeg 0x30C = some (-1) := by
  rw [read_float_of_bytes pmFreqNeg 0x30C 0x00 0x00 0x80 0xBF (by norm_num [pmFreqNeg])
    (by norm_num [pmFreqNeg]) (by norm_num [pmFreqNeg]) (by norm_num [pmFreqNeg])
    (by norm_num [pmFreqNeg])]
  decide

/-- Core 0 of `pmFreq35` decodes to 3500.0 MHz. -/
lemma coreFreqAt_pmFreq35 : coreFreqAt pmFreq35 0 = 3500 := by
  norm_num [coreFreqAt, read_float_pmFreq35_freq]

/-- Core 0 of `pmFreqNeg` decodes to -1000.0 MHz. -/
lemma coreFreqAt_pmFreqNeg : coreFreqAt pmFreqNeg 0 = -1000 := by
  norm_num [coreFreqAt, read_float_pmFreqNeg_freq]

/-- C7: `coupledMode` is true iff `uclkMHz` equals `mclkMHz` exactly
(line 183); in particular both fields reading 1600.0 yields `true`,
and 1600.0 against the binary32 value closest to 1599.999
(1599.9990234375 = 1638399/1024) yields `false`. -/
theorem coupledMode_iff_eq :
    (∀ (pm : ByteBuf) (cores : Nat) (s : PmSnapshot),
      parse_pm_table pm cores = some s →
      (s.coupledMode = true ↔ s.uclkMHz = s.mclkMHz)) ∧
    (parse_pm_table pmCoupled 1 = some snapCoupled ∧ snapCoupled.uclkMHz = 1600 ∧
      snapCoupled.mclkMHz = 1600 ∧ snapCoupled.coupledMode = true) ∧
    (parse_pm_table pmUncoupled 1 = some snapUncoupled ∧
      snapUncoupled.uclkMHz = 1600 ∧ snapUncoupled.mclkMHz = 1638399 / 1024 ∧
      snapUncoupled.coupledMode = false) := by
  refine ⟨?_, ⟨parse_pmCoupled, rfl, rfl, rfl⟩, ⟨parse_pmUncoupled, rfl, rfl, rfl⟩⟩
  intro pm cores s h
  obtain ⟨st, pw, mv, hst, hpw, hmv, rfl⟩ := parse_pm_table_eq_some h
  dsimp only
  split_ifs with he
  · simp [he]
  · simp [he]

/-- Witness for C7's universally quantified part at the coupled
buffer. -/
theorem coupledMode_iff_eq_witness :
    snapCoupled.coupledMode = true ↔ snapCoupled.uclkMHz = snapCoupled.mclkMHz :=
  coupledMode_iff_eq.1 pmCoupled 1 snapCoupled coupledMode_iff_eq.2.1.1

/-- Witness for C4 at the all-zero buffer with one core. -/
theorem edcU_eq_max_witness :
    snapZero.edcU = max snapZero.edcUraw snapZero.tdcU ∧
      snapZero.tdcU ≤ snapZero.edcU :=
  edcU_eq_max pmZero 1 snapZero (le_refl 1) parse_pmZero

/-- Witness for C6 at the all-zero buffer with one core. -/
theorem edcUraw_formula_witness :
    snapZero.edcUraw = (read_float pmZero 0x024).getD 0 *
        (snapZero.totalA / ((1 : Nat) : ℚ) / 100) ∧
      snapZero.totalA = ((List.range 1).map (coreActAt pmZero)).sum :=
  edcUraw_formula pmZero 1 snapZero (le_refl 1) parse_pmZero

/-- Witness for C8 at the 3.5-frequency buffer: the recorded pair is
the raw read scaled once, concretely 3500.0 MHz. -/
theorem coreReading_formula_witness :
    snapFreq35.coreReadings[0]? =
        some ((read_float pmFreq35 (0x30C + 0 * 4)).getD 0 * 1000,
          (read_float pmFreq35 (0x32C + 0 * 4)).getD 0) ∧
      snapFreq35.coreReadings[0]? = some (3500, 0) :=
  ⟨coreReading_formula pmFreq35 1 snapFreq35 0 (by norm_num) parse_pmFreq35,
   by norm_num [snapFreq35]⟩

/-- Witness for C5's amended theorem at the 3.5-frequency buffer,
whose single decoded frequency 3500.0 is positive. -/
theorem peakFreq_max_of_positive_witness :
    ∃ j, j < 1 ∧ snapFreq35.peakFreq = coreFreqAt pmFreq35 j ∧
      snapFreq35.peakActivity = some (coreActAt pmFreq35 j) ∧
      (∀ i, i < 1 → coreFreqAt pmFreq35 i ≤ coreFreqAt pmFreq35 j) ∧
      ∀ k, k < j → coreFreqAt pmFreq35 k < coreFreqAt pmFreq35 j :=
  peakFreq_max_of_positive pmFreq35 1 snapFreq35 (le_refl 1) parse_pmFreq35
    ⟨0, Nat.lt_succ_self 0, by rw [coreFreqAt_pmFreq35]; norm_num⟩

/-- C5, counterexample: on a buffer whose only decoded frequency is
-1000.0 MHz, the snapshot's `peakFreq` is 0 — not the maximum decoded
frequency — and `peakActivity` was never assigned, because the
tracker starts at 0 and only moves on strict improvement. -/
theorem peakFreq_misses_negative_max :
    parse_pm_table pmFreqNeg 1 = some snapFreqNeg ∧
      coreFreqAt pmFreqNeg 0 = -1000 ∧
      snapFreqNeg.peakFreq = 0 ∧
      snapFreqNeg.peakFreq ≠ coreFreqAt pmFreqNeg 0 ∧
      snapFreqNeg.peakActivity = none := by
  refine ⟨parse_pmFreqNeg, coreFreqAt_pmFreqNeg, rfl, ?_, rfl⟩
  rw [coreFreqAt_pmFreqNeg]
  norm_num [snapFreqNeg]
